import Mathlib

/-!
Verification of the Fabric_CICD page-scan result aggregation and reporting
pipeline.  The definitions below are a shallow embedding of the Python and
embedded JavaScript sources:

* `src/conftest.py` (`pytest_sessionfinish`): aggregation of worker result
  files, summary statistics, artifact writing and worker-file cleanup.
* `src/helper_functions/report_html.py` (`generate_html_report`): the HTML
  renderer.
* `src/tests/test_pbi_visual_validation.py` (the JavaScript page-scan
  evaluated in the browser): the per-page render-probe wait loop and the
  synthesis of page-level errors.
* `src/helper_functions/token_helpers.py` (`get_report_embed_token`): the
  embed-token request body.

Machine reals (Python floats) are modelled as rationals; Python `round(x, 2)`
is modelled as round-half-to-even at two decimal places.  JSON dictionaries
are modelled as association lists in insertion order, with JavaScript object
assignment semantics (`jsSet`).
-/

namespace FabricCICD

/-- One page's scan record as stored in a worker result file
(the fields `pytest_sessionfinish` and `generate_html_report` read:
`errors`, `serviceUrl`, `duration`).  The error mapping is an association
list in insertion order; an empty mapping means the page passed. -/
structure PageInfo where
  errors : List (String × String)
  serviceUrl : String
  duration : ℚ
  deriving Repr, DecidableEq

/-- One report's scan record (`result_data` in the test file), restricted to
the fields the aggregator and renderer read. `pages` maps page name to
`PageInfo`, in discovery order. -/
structure ReportResult where
  reportName : String
  reportId : String
  pages : List (String × PageInfo)
  deriving Repr, DecidableEq

/-- Round-half-to-even to an integer, the rounding mode of Python's
built-in `round`. -/
def roundHalfEven (q : ℚ) : ℤ :=
  if q - ⌊q⌋ < 1/2 then ⌊q⌋
  else if 1/2 < q - ⌊q⌋ then ⌊q⌋ + 1
  else if ⌊q⌋ % 2 = 0 then ⌊q⌋ else ⌊q⌋ + 1

/-- Python's `round(q, 2)`: round-half-to-even at two decimal places. -/
def round2 (q : ℚ) : ℚ := (roundHalfEven (q * 100) : ℚ) / 100

/-- A Python number: the aggregator stores the literal int `0` for the pass
rate of an empty session and a float otherwise, and the two print
differently (`0` versus `0.0`). -/
inductive PyNum where
  | int : ℤ → PyNum
  | float : ℚ → PyNum
  deriving Repr, DecidableEq

/-- Numeric value of a `PyNum` (Python compares ints and floats by value). -/
def PyNum.toRat : PyNum → ℚ
  | .int n => n
  | .float q => q

/-- The `summary` dictionary built by `pytest_sessionfinish`. -/
structure Summary where
  totalReports : ℕ
  totalPages : ℕ
  failedPages : ℕ
  passedPages : ℕ
  passRate : PyNum
  deriving Repr, DecidableEq

/-- A page is counted as failed when its error mapping is non-empty
(`p.get("errors")` is truthy). -/
def pageFailed (p : PageInfo) : Bool := !p.errors.isEmpty

/-- The accumulator loop of `pytest_sessionfinish` lines 51-56:
`total_pages` and `failed_pages` accumulated over all reports. -/
def countLoop (allResults : List ReportResult) : ℕ × ℕ :=
  allResults.foldl
    (fun acc report =>
      (acc.1 + report.pages.length,
       acc.2 + report.pages.countP (fun pg => pageFailed pg.2)))
    (0, 0)

/-- The `summary` dictionary of `pytest_sessionfinish` lines 58-68. -/
def mkSummary (allResults : List ReportResult) : Summary :=
  let tp := (countLoop allResults).1
  let fp := (countLoop allResults).2
  { totalReports := allResults.length
    totalPages := tp
    failedPages := fp
    passedPages := tp - fp
    passRate :=
      if tp ≠ 0 then .float (round2 (((tp : ℚ) - (fp : ℚ)) / (tp : ℚ) * 100))
      else .int 0 }

/-- The `final_output` dictionary (`pytest_sessionfinish` lines 70-75). -/
structure FinalOutput where
  environment : String
  generatedAt : String
  summary : Summary
  reports : List ReportResult
  deriving Repr, DecidableEq

/-! ### HTML renderer (`src/helper_functions/report_html.py`) -/

/-- `f"{x:.0f}"`: round-half-to-even to an integer and print it without a
decimal point. -/
def format0f (q : ℚ) : String := toString (roundHalfEven q)

/-- `str` of a Python float of the shape the pipeline produces (a value of
`round(x, 2)`, i.e. an integer multiple of 1/100): Python prints the shortest
decimal form but always with at least one digit after the point. -/
def floatStr (q : ℚ) : String :=
  let n := roundHalfEven (q * 100)
  let sign := if n < 0 then "-" else ""
  let m := n.natAbs
  let ip := m / 100
  let fr := m % 100
  if fr = 0 then sign ++ toString ip ++ ".0"
  else if fr % 10 = 0 then sign ++ toString ip ++ "." ++ toString (fr / 10)
  else if fr < 10 then sign ++ toString ip ++ ".0" ++ toString fr
  else sign ++ toString ip ++ "." ++ toString fr

/-- Python `str` applied to a summary number (an int prints as `0`,
a float as `0.0`). -/
def pyNumStr : PyNum → String
  | .int n => toString n
  | .float q => floatStr q

/-- The base64 alphabet. -/
def base64Chars : List Char :=
  "ABCDEFGHIJKLMNOPQRSTUVWXYZabcdefghijklmnopqrstuvwxyz0123456789+/".toList

/-- One base64 output character. -/
def b64c (n : ℕ) : String := String.singleton (base64Chars.getD n 'A')

/-- Standard base64 of a byte sequence (`base64.b64encode`), bytes < 256. -/
def base64Encode : List ℕ → String
  | [] => ""
  | [a] => b64c (a / 4) ++ b64c (a % 4 * 16) ++ "=="
  | [a, b] => b64c (a / 4) ++ b64c (a % 4 * 16 + b / 16) ++ b64c (b % 16 * 4) ++ "="
  | a :: b :: c :: rest =>
    b64c (a / 4) ++ b64c (a % 4 * 16 + b / 16) ++ b64c (b % 16 * 4 + c / 64) ++
      b64c (c % 64) ++ base64Encode rest

/-- Contents of a file in the results directory, as far as the pipeline
inspects them: a worker result file parses to a list of `ReportResult`
(`json.loads`), a malformed file fails to parse, the two written artifacts
and screenshots are never re-parsed as worker results. -/
inductive FileContent where
  | workerResults : List ReportResult → FileContent
  | malformed : FileContent
  | finalJson : FinalOutput → FileContent
  | htmlDoc : String → FileContent
  | png : List ℕ → FileContent
  deriving Repr, DecidableEq

/-- `json.loads` of a file followed by `list.extend`: succeeds exactly on a
worker result list. -/
def parseContent : FileContent → Option (List ReportResult)
  | .workerResults rs => some rs
  | _ => none

/-- `read_bytes`, used only on screenshot files. -/
def fileBytes : FileContent → List ℕ
  | .png bs => bs
  | _ => []

/-- `str.startswith`, computed on the character list. -/
def strStartsWith (s pre : String) : Bool := pre.data.isPrefixOf s.data

/-- `str.endswith`, computed on the character list. -/
def strEndsWith (s suf : String) : Bool :=
  suf.data.reverse.isPrefixOf s.data.reverse

/-- `results_dir.glob(f"{page_name}_*.png")` name test: glob with a single
`*` between a literal head and tail whose adjacent characters differ is
exactly a head test plus a tail test. -/
def matchesScreenshot (pageName fname : String) : Bool :=
  strStartsWith fname (pageName ++ "_") && strEndsWith fname ".png"

/-- Lines 28-34 of `report_html.py`: embed the first screenshot whose name
matches `<pageName>_*.png`, as a base64 `<img>` tag; empty when none match. -/
def screenshotHtml (fs : List (String × FileContent)) (pageName : String) : String :=
  match fs.find? (fun f => matchesScreenshot pageName f.1) with
  | none => ""
  | some f =>
    "<img src=\"data:image/png;base64," ++ base64Encode (fileBytes f.2) ++
      "\" alt=\"" ++ pageName ++ "\" />"

/-- One `<tr>` row of a failed page's error table (line 36-38). -/
def errorRow (e : String × String) : String :=
  "<tr><td>" ++ e.1 ++ "</td><td>" ++ e.2 ++ "</td></tr>"

/-- The per-failed-page record collected at lines 40-48. -/
structure FailedPage where
  page_name : String
  service_url : String
  duration : ℚ
  error_rows : String
  screenshot_html : String
  deriving Repr, DecidableEq

/-- Lines 19-48: the failed pages of one report, in page order (pages with an
empty error mapping are skipped). -/
def collectFailedPages (fs : List (String × FileContent)) (r : ReportResult) :
    List FailedPage :=
  (r.pages.filter (fun pg => !pg.2.errors.isEmpty)).map
    (fun pg =>
      { page_name := pg.1
        service_url := pg.2.serviceUrl
        duration := pg.2.duration
        error_rows := String.join (pg.2.errors.map errorRow)
        screenshot_html := screenshotHtml fs pg.1 })

/-- The page tile f-string of lines 56-67 (whitespace as in the source). -/
def pageTile (fp : FailedPage) : String :=
  "<div class=\"page-tile\">\n                    <h4>" ++ fp.page_name ++
  "</h4>\n                    <p class=\"meta\">Duration: " ++ format0f fp.duration ++
  "ms</p>\n                    <p><a href=\"" ++ fp.service_url ++
  "\" target=\"_blank\">Open in Power BI</a></p>\n                    <table>\n" ++
  "                        <thead><tr><th>Visual</th><th>Error</th></tr></thead>\n" ++
  "                        <tbody>" ++ fp.error_rows ++
  "</tbody>\n                    </table>\n                    " ++
  fp.screenshot_html ++ "\n                </div>"

/-- The per-report failure card f-string of lines 69-78. -/
def reportCard (r : ReportResult) (fps : List FailedPage) : String :=
  "\n            <div class=\"card failed\">\n                <h3>" ++ r.reportName ++
  "</h3>\n                <p class=\"meta\">Report ID: " ++ r.reportId ++ " | " ++
  toString fps.length ++ " failed page" ++ (if fps.length ≠ 1 then "s" else "") ++
  "</p>\n                <div class=\"page-grid\">\n                    " ++
  String.join (fps.map pageTile) ++
  "\n                </div>\n            </div>"

/-- Lines 13-78: one failure card per report that has at least one failed
page; reports whose `failed_pages` list is empty are skipped. -/
def failedSections (reports : List ReportResult)
    (fs : List (String × FileContent)) : List String :=
  reports.filterMap (fun r =>
    let fps := collectFailedPages fs r
    if fps.isEmpty then none else some (reportCard r fps))

/-- Line 81: `"pass" if pass_rate == 100 else "fail"` (numeric equality). -/
def statusClass (pr : PyNum) : String := if pr.toRat = 100 then "pass" else "fail"

/-- The Pass Rate stat `<div>` of line 127, carrying the status class. -/
def passRateStatDiv (pr : PyNum) : String :=
  "<div class=\"stat\"><div class=\"label\">Pass Rate</div><div class=\"value " ++
  statusClass pr ++ "\">" ++ pyNumStr pr ++ "%</div></div>"

/-- Lines 83-120 of the big f-string: everything before the spliced
`generated_at` value (doctype, CSS, header, environment). -/
def htmlHeadPre (environment : String) : String :=
  "<!DOCTYPE html>\n<html lang=\"en\">\n<head>\n<meta charset=\"UTF-8\">\n" ++
  "<meta name=\"viewport\" content=\"width=device-width, initial-scale=1.0\">\n" ++
  "<title>Power BI Visual Test Report</title>\n<style>\n" ++
  "    body \x7b font-family: -apple-system, BlinkMacSystemFont, \x27Segoe UI\x27, Roboto, sans-serif; margin: 0; padding: 20px; background: #f5f5f5; color: #333; \x7d\n" ++
  "    h1 \x7b margin-bottom: 4px; \x7d\n" ++
  "    .header \x7b background: #fff; padding: 20px 24px; border-radius: 8px; margin-bottom: 20px; box-shadow: 0 1px 3px rgba(0,0,0,0.1); \x7d\n" ++
  "    .header .meta \x7b color: #666; font-size: 14px; \x7d\n" ++
  "    .summary \x7b display: flex; gap: 16px; flex-wrap: wrap; margin-bottom: 20px; \x7d\n" ++
  "    .stat \x7b background: #fff; padding: 16px 20px; border-radius: 8px; box-shadow: 0 1px 3px rgba(0,0,0,0.1); min-width: 140px; \x7d\n" ++
  "    .stat .label \x7b font-size: 13px; color: #666; text-transform: uppercase; \x7d\n" ++
  "    .stat .value \x7b font-size: 28px; font-weight: 700; margin-top: 4px; \x7d\n" ++
  "    .stat .value.pass \x7b color: #22863a; \x7d\n" ++
  "    .stat .value.fail \x7b color: #cb2431; \x7d\n" ++
  "    .card \x7b background: #fff; padding: 20px 24px; border-radius: 8px; margin-bottom: 16px; box-shadow: 0 1px 3px rgba(0,0,0,0.1); \x7d\n" ++
  "    .card.failed \x7b border-left: 4px solid #cb2431; \x7d\n" ++
  "    .card h3 \x7b margin: 0 0 12px 0; \x7d\n" ++
  "    .card .meta \x7b color: #666; font-size: 13px; \x7d\n" ++
  "    .card a \x7b color: #0366d6; \x7d\n" ++
  "    .page-grid \x7b display: grid; grid-template-columns: repeat(auto-fill, minmax(480px, 1fr)); gap: 16px; margin-top: 12px; \x7d\n" ++
  "    .page-tile \x7b background: #fafafa; border: 1px solid #e1e4e8; border-radius: 6px; padding: 14px; \x7d\n" ++
  "    .page-tile h4 \x7b margin: 0 0 6px 0; font-size: 15px; \x7d\n" ++
  "    .page-tile .meta \x7b margin: 0 0 4px 0; \x7d\n" ++
  "    .page-tile img \x7b max-width: 100%; border: 1px solid #ddd; border-radius: 4px; margin-top: 8px; \x7d\n" ++
  "    table \x7b width: 100%; border-collapse: collapse; margin-top: 8px; font-size: 14px; \x7d\n" ++
  "    th, td \x7b text-align: left; padding: 6px 10px; border-bottom: 1px solid #eee; \x7d\n" ++
  "    th \x7b background: #f9f9f9; font-weight: 600; \x7d\n" ++
  "    .all-pass \x7b text-align: center; padding: 40px; color: #22863a; \x7d\n" ++
  "    .all-pass h2 \x7b font-size: 24px; \x7d\n" ++
  "</style>\n</head>\n<body>\n<div class=\"header\">\n" ++
  "    <h1>Power BI Visual Test Report</h1>\n" ++
  "    <p class=\"meta\">Environment: " ++ environment ++ " | Generated: "

/-- Lines 120-129 of the big f-string: everything after the spliced
`generated_at` value (summary stat blocks). -/
def htmlHeadPost (s : Summary) : String :=
  "</p>\n</div>\n<div class=\"summary\">\n" ++
  "    <div class=\"stat\"><div class=\"label\">Reports</div><div class=\"value\">" ++
  toString s.totalReports ++ "</div></div>\n" ++
  "    <div class=\"stat\"><div class=\"label\">Total Pages</div><div class=\"value\">" ++
  toString s.totalPages ++ "</div></div>\n" ++
  "    <div class=\"stat\"><div class=\"label\">Passed</div><div class=\"value pass\">" ++
  toString s.passedPages ++ "</div></div>\n" ++
  "    <div class=\"stat\"><div class=\"label\">Failed</div><div class=\"value fail\">" ++
  toString s.failedPages ++ "</div></div>\n" ++
  "    " ++ passRateStatDiv s.passRate ++ "\n</div>\n"

/-- The success card of line 134. -/
def allPassCard : String :=
  "<div class=\"card all-pass\"><h2>All pages passed visual validation</h2></div>"

/-- Lines 131-136: the document tail appended after the summary block. -/
def renderTail (sections : List String) : String :=
  (if sections.isEmpty then allPassCard
   else "<h2>Failed Reports</h2>\n" ++ String.intercalate "\n" sections) ++
  "\n</body>\n</html>"

/-- `generate_html_report(final_output, results_dir)`: the whole document. -/
def generateHtmlReport (fo : FinalOutput) (fs : List (String × FileContent)) :
    String :=
  htmlHeadPre fo.environment ++ fo.generatedAt ++ htmlHeadPost fo.summary ++
    renderTail (failedSections fo.reports fs)

/-! ### Session finish: aggregation, artifact writing, cleanup
    (`src/conftest.py`, `pytest_sessionfinish`) -/

/-- The fixed results directory (`tests/test-results` under the repo root). -/
def resultsDirName : String := "tests/test-results"

/-- The worker-result glob `results_*.json` applied to a file name (a head
test plus a tail test; the two cannot overlap since no character is both
`_` and `.`). -/
def matchesWorkerPattern (name : String) : Bool :=
  strStartsWith name "results_" && strEndsWith name ".json"

/-- `write_text`: overwrite the entry of that name in place, or create it. -/
def fsWrite (fs : List (String × FileContent)) (name : String)
    (content : FileContent) : List (String × FileContent) :=
  if fs.any (fun f => f.1 = name) then
    fs.map (fun f => if f.1 = name then (name, content) else f)
  else fs ++ [(name, content)]

/-- A filesystem side effect performed by `pytest_sessionfinish`
(lines 77-93). -/
inductive FsOp where
  | mkdirParents : String → FsOp
  | writeFile : String → FileContent → FsOp
  | renameFile : String → String → FsOp
  | unlinkFile : String → FsOp
  deriving Repr, DecidableEq

/-- Whether an operation is a rename. -/
def FsOp.isRename : FsOp → Bool
  | .renameFile _ _ => true
  | _ => false

/-- Constructor kind of an `FsOp`, for content-independent statements. -/
inductive FsOpKind where
  | mkdir | write | rename | unlink
  deriving Repr, DecidableEq

/-- Kind and target path of an `FsOp`. -/
def FsOp.kindTarget : FsOp → FsOpKind × String
  | .mkdirParents d => (.mkdir, d)
  | .writeFile n _ => (.write, n)
  | .renameFile _ dst => (.rename, dst)
  | .unlinkFile n => (.unlink, n)

/-- Everything `pytest_sessionfinish` computes and does, given the
environment tag, the formatted UTC timestamp, and the listing of the
results directory. -/
structure SessionOutcome where
  finalOutput : FinalOutput
  warnings : ℕ
  ops : List FsOp
  deleted : List String
  finalFs : List (String × FileContent)
  deriving Repr, DecidableEq

/-- `pytest_sessionfinish` (main process): read every `results_*.json`
file, skip (with a warning) the ones that fail to parse, concatenate the
parsed report lists in enumeration order, build the summary and
`final_output`, write `all_reports_results.json` and `report.html` directly
(a plain `write_text` each, no temporary file and no rename), and finally
unlink every file matching `results_*.json`. -/
def sessionFinish (env t : String) (fs : List (String × FileContent)) :
    SessionOutcome :=
  let workerFiles := fs.filter (fun f => matchesWorkerPattern f.1)
  let allResults := (workerFiles.filterMap (fun f => parseContent f.2)).flatten
  let warnings := workerFiles.countP (fun f => (parseContent f.2).isNone)
  let fo : FinalOutput :=
    { environment := env, generatedAt := t
      summary := mkSummary allResults, reports := allResults }
  let fs1 := fsWrite fs "all_reports_results.json" (.finalJson fo)
  let html := generateHtmlReport fo fs1
  let fs2 := fsWrite fs1 "report.html" (.htmlDoc html)
  let deleted := (fs2.filter (fun f => matchesWorkerPattern f.1)).map Prod.fst
  { finalOutput := fo
    warnings := warnings
    ops :=
      [FsOp.mkdirParents resultsDirName,
       FsOp.writeFile "all_reports_results.json" (.finalJson fo),
       FsOp.writeFile "report.html" (.htmlDoc html)] ++
      deleted.map FsOp.unlinkFile
    deleted := deleted
    finalFs := fs2.filter (fun f => !matchesWorkerPattern f.1) }

/-! ### Per-page render probe
    (the JavaScript scan in `src/tests/test_pbi_visual_validation.py`,
    lines 122-204) -/

/-- A visual element as discovered by `pageObj.getVisuals()`: its stable
`name` identifier and its display `title` (`""` models a falsy/absent
title, so that `v.title || v.name` falls back to the identifier). -/
structure Visual where
  name : String
  title : String
  deriving Repr, DecidableEq

/-- `v.title || v.name`. -/
def Visual.displayLabel (v : Visual) : String :=
  if v.title = "" then v.name else v.title

/-- An event delivered to the probe's listeners while a page is active.
`none`/`""` payloads model absent or falsy `event.detail` fields. -/
inductive PBIEvent where
  | visualRendered : Option String → PBIEvent
  | reportError : Option String → PBIEvent
  deriving Repr, DecidableEq

/-- `event?.detail?.message || 'Unknown Power BI error'`. -/
def defaultErrMsg : Option String → String
  | none => "Unknown Power BI error"
  | some s => if s = "" then "Unknown Power BI error" else s

/-- The `reportErrors` list at check time `k`: messages of all error events
delivered so far, in arrival order (`onError`, lines 138-142). -/
def reportErrorsAt (trace : List (ℕ × PBIEvent)) (k : ℕ) : List String :=
  trace.filterMap (fun e =>
    match e with
    | (t, .reportError m) => if t ≤ k then some (defaultErrMsg m) else none
    | _ => none)

/-- The names added to `renderedSet` by check time `k` (with multiplicity;
the set itself deduplicates).  `onRendered` (lines 144-149) ignores events
with a falsy name. -/
def renderedNamesAt (trace : List (ℕ × PBIEvent)) (k : ℕ) : List String :=
  trace.filterMap (fun e =>
    match e with
    | (t, .visualRendered (some n)) => if t ≤ k && n ≠ "" then some n else none
    | _ => none)

/-- `errorDetected` at check time `k`. -/
def errorDetectedAt (trace : List (ℕ × PBIEvent)) (k : ℕ) : Bool :=
  !(reportErrorsAt trace k).isEmpty

/-- `renderedSet.size` at check time `k`. -/
def renderedSizeAt (trace : List (ℕ × PBIEvent)) (k : ℕ) : ℕ :=
  ((renderedNamesAt trace k).dedup).length

/-- The poll condition of line 159:
`errorDetected || renderedSet.size >= visuals.length`. -/
def condAt (visuals : List Visual) (trace : List (ℕ × PBIEvent)) (k : ℕ) : Bool :=
  errorDetectedAt trace k || decide (visuals.length ≤ renderedSizeAt trace k)

/-- The wait condition as the specification words it: an error has arrived,
or every discovered visual identifier is in the rendered set. -/
def specCondAt (visuals : List Visual) (trace : List (ℕ × PBIEvent)) (k : ℕ) : Bool :=
  errorDetectedAt trace k ||
    visuals.all (fun v => (renderedNamesAt trace k).contains v.name)

/-- The polling recursion of lines 156-165: starting from check time `k`
with `fuel` checks remaining before the 15-second timer wins the race,
return the second at which the `Promise.race` resolves.  A check runs at
`k = 0, 1, 2, ...` (one-second `setTimeout` between checks); after 15
failed checks the hard-timeout promise resolves at second 15. -/
def waitExitGo (cond : ℕ → Bool) : ℕ → ℕ → ℕ
  | k, 0 => k
  | k, fuel + 1 => if cond k then k else waitExitGo cond (k + 1) fuel

/-- The second at which the wait of lines 156-165 exits: the first check
time in `0..14` whose condition holds, or 15 when the hard timeout wins. -/
def waitExit (cond : ℕ → Bool) : ℕ := waitExitGo cond 0 15

/-- JavaScript object property assignment `m[k] = v` on an insertion-ordered
object: update in place when the key exists, else append. -/
def jsSet (m : List (String × String)) (k v : String) : List (String × String) :=
  if m.any (fun e => e.1 = k) then
    m.map (fun e => if e.1 = k then (k, v) else e)
  else m ++ [(k, v)]

/-- The timeout message of line 174. -/
def timeoutMsg : String := "Visual did not render within timeout"

/-- The `pageErrors` object after the synthesis loops of lines 170-182:
one timeout entry per discovered visual absent from the rendered set, keyed
by its display label, then one `report-error-<n>` entry per collected
report-level error message. -/
def synthesizeErrors (visuals : List Visual) (rendered : List String)
    (msgs : List String) : List (String × String) :=
  let m := visuals.foldl
    (fun m v =>
      if rendered.contains v.name then m
      else jsSet m v.displayLabel timeoutMsg)
    []
  msgs.enum.foldl
    (fun m p => jsSet m ("report-error-" ++ toString (p.1 + 1)) p.2) m

/-- What one page scan records (restricted to the fields the claims are
about). `failed` is the membership test of lines 201-203. -/
structure PageScanResult where
  errors : List (String × String)
  failed : Bool
  exitAt : ℕ
  deriving Repr, DecidableEq

/-- One page scan: run the wait loop against the event trace, then
synthesize the page's error mapping from the rendered set and the collected
report-level errors at exit time. -/
def scanPage (visuals : List Visual) (trace : List (ℕ × PBIEvent)) :
    PageScanResult :=
  let e := waitExit (condAt visuals trace)
  let errs := synthesizeErrors visuals (renderedNamesAt trace e)
    (reportErrorsAt trace e)
  { errors := errs, failed := !errs.isEmpty, exitAt := e }

/-- The timeout entries the synthesis produces, as a plain list. -/
def timeoutEntries (visuals : List Visual) (rendered : List String) :
    List (String × String) :=
  (visuals.filter (fun v => !rendered.contains v.name)).map
    (fun v => (v.displayLabel, timeoutMsg))

/-- The report-level error entries the synthesis produces, as a plain list:
`report-error-<n>`, 1-indexed in arrival order. -/
def reportEntries (msgs : List String) : List (String × String) :=
  msgs.enum.map (fun p => ("report-error-" ++ toString (p.1 + 1), p.2))

/-! ### Embed-token request body
    (`src/helper_functions/token_helpers.py`, `get_report_embed_token`) -/

/-- `ReportEmbedInfo` restricted to the fields the token request reads.
`Option String` fields model Python `str | None`; `some ""` is falsy. -/
structure EmbedInfo where
  report_id : String
  workspace_id : String
  dataset_id : Option String
  role : Option String
  is_effective_identity_required : Bool
  is_effective_identity_roles_required : Bool
  deriving Repr, DecidableEq

/-- Python truthiness of an optional string. -/
def truthyStr : Option String → Bool
  | none => false
  | some s => s ≠ ""

/-- The effective-identity object built at lines 87-92. -/
structure EffectiveIdentity where
  username : String
  datasets : List String
  roles : Option (List String)
  deriving Repr, DecidableEq

/-- The `GenerateToken` request body (lines 78-94): `accessLevel` always
`"View"`; `identities` added only inside the guarded block. -/
structure TokenRequestBody where
  accessLevel : String
  identities : Option (List EffectiveIdentity)
  deriving Repr, DecidableEq

/-- Lines 78-94 of `get_report_embed_token`: build the request body.
`envDefaultRole` is `os.environ.get("DEFAULT_RLS_ROLE")`. -/
def buildTokenBody (ri : EmbedInfo) (envDefaultRole : Option String) :
    TokenRequestBody :=
  if ri.is_effective_identity_required && truthyStr ri.dataset_id then
    let role := if truthyStr ri.role then ri.role else envDefaultRole
    let identity : EffectiveIdentity :=
      { username := "TestUser"
        datasets := [ri.dataset_id.getD ""]
        roles :=
          if ri.is_effective_identity_roles_required && truthyStr role then some [role.getD ""]
          else none }
    { accessLevel := "View", identities := some [identity] }
  else { accessLevel := "View", identities := none }

/-! ## Supporting lemmas -/

/-- The accumulator loop computes the two sums, from any starting pair. -/
theorem countLoop_go (l : List ReportResult) (a b : ℕ) :
    l.foldl
      (fun acc r =>
        (acc.1 + r.pages.length, acc.2 + r.pages.countP (fun pg => pageFailed pg.2)))
      (a, b)
    = (a + (l.map (fun r => r.pages.length)).sum,
       b + (l.map (fun r => r.pages.countP (fun pg => pageFailed pg.2))).sum) := by
  induction l generalizing a b with
  | nil => simp
  | cons r l ih => simp [ih, Nat.add_assoc]

/-- `countLoop` computes (total pages, failed pages) as sums over reports. -/
theorem countLoop_eq (l : List ReportResult) :
    countLoop l
    = ((l.map (fun r => r.pages.length)).sum,
       (l.map (fun r => r.pages.countP (fun pg => pageFailed pg.2))).sum) := by
  simpa [countLoop] using countLoop_go l 0 0

/-- Failed pages never outnumber total pages. -/
theorem countLoop_snd_le_fst (l : List ReportResult) :
    (countLoop l).2 ≤ (countLoop l).1 := by
  rw [countLoop_eq]
  exact List.sum_le_sum (by
    intro r _
    exact List.countP_le_length _)

/-! ## C1 -/

/-- C1: for every collection of successfully parsed `ReportResult`s, the
aggregator's summary has `totalPages` equal to the sum of the page counts,
`failedPages` equal to the number of pages with a non-empty error mapping,
`passedPages = totalPages - failedPages`, and
`passRate = round(passedPages / totalPages * 100, 2)` when `totalPages ≠ 0`
and `0` when `totalPages = 0`. -/
theorem mkSummary_correct (allResults : List ReportResult) :
    (mkSummary allResults).totalPages
      = (allResults.map (fun r => r.pages.length)).sum
    ∧ (mkSummary allResults).failedPages
      = (allResults.map (fun r => r.pages.countP (fun pg => !pg.2.errors.isEmpty))).sum
    ∧ (mkSummary allResults).passedPages
      = (mkSummary allResults).totalPages - (mkSummary allResults).failedPages
    ∧ ((mkSummary allResults).totalPages ≠ 0 →
        (mkSummary allResults).passRate.toRat
          = round2 (((mkSummary allResults).passedPages : ℚ)
              / ((mkSummary allResults).totalPages : ℚ) * 100))
    ∧ ((mkSummary allResults).totalPages = 0 →
        (mkSummary allResults).passRate.toRat = 0) := by
  have hle := countLoop_snd_le_fst allResults
  refine ⟨?_, ?_, ?_, ?_, ?_⟩
  · simp [mkSummary, countLoop_eq]
  · simp [mkSummary, countLoop_eq, pageFailed]
  · simp [mkSummary]
  · intro h
    have h' : (countLoop allResults).1 ≠ 0 := by
      simpa [mkSummary] using h
    have hcast : (((countLoop allResults).1 - (countLoop allResults).2 : ℕ) : ℚ)
        = ((countLoop allResults).1 : ℚ) - ((countLoop allResults).2 : ℚ) := by
      exact Nat.cast_sub hle
    simp [mkSummary, h', PyNum.toRat, hcast]
  · intro h
    have h' : (countLoop allResults).1 = 0 := by
      simpa [mkSummary] using h
    simp [mkSummary, h', PyNum.toRat]

/-- C1 witness: the summary identities evaluated on a concrete two-page,
one-failure collection. -/
theorem mkSummary_correct_witness :
    (mkSummary [⟨"R", "id",
        [("p1", ⟨[("v", "e")], "u", 10⟩), ("p2", ⟨[], "u", 5⟩)]⟩]).totalPages ≠ 0
    ∧ (mkSummary [⟨"R", "id",
        [("p1", ⟨[("v", "e")], "u", 10⟩), ("p2", ⟨[], "u", 5⟩)]⟩]).passRate.toRat
      = round2 (((mkSummary [⟨"R", "id",
          [("p1", ⟨[("v", "e")], "u", 10⟩), ("p2", ⟨[], "u", 5⟩)]⟩]).passedPages : ℚ)
        / ((mkSummary [⟨"R", "id",
          [("p1", ⟨[("v", "e")], "u", 10⟩), ("p2", ⟨[], "u", 5⟩)]⟩]).totalPages : ℚ)
        * 100) :=
  ⟨by decide,
   (mkSummary_correct [⟨"R", "id",
      [("p1", ⟨[("v", "e")], "u", 10⟩), ("p2", ⟨[], "u", 5⟩)]⟩]).2.2.2.1 (by decide)⟩

/-! ## C4 -/

/-- C4: with one malformed worker file among otherwise valid ones, the
aggregation warns once, skips only the malformed file, and the
`FinalReport`'s reports are exactly the concatenated contents of the valid
files: the malformed file neither aborts aggregation nor contributes. -/
theorem aggregation_skips_malformed (env t : String)
    (fs A B : List (String × FileContent)) (bad : String × FileContent)
    (hsplit : fs.filter (fun f => matchesWorkerPattern f.1) = A ++ bad :: B)
    (hbad : parseContent bad.2 = none)
    (hA : ∀ f ∈ A, (parseContent f.2).isSome)
    (hB : ∀ f ∈ B, (parseContent f.2).isSome) :
    (sessionFinish env t fs).finalOutput.reports
      = ((A ++ B).filterMap (fun f => parseContent f.2)).flatten
    ∧ (sessionFinish env t fs).warnings = 1 := by
  constructor
  · show ((fs.filter (fun f => matchesWorkerPattern f.1)).filterMap
        (fun f => parseContent f.2)).flatten = _
    rw [hsplit]
    simp [List.filterMap_append, List.filterMap_cons, hbad]
  · show (fs.filter (fun f => matchesWorkerPattern f.1)).countP
        (fun f => (parseContent f.2).isNone) = 1
    rw [hsplit]
    rw [List.countP_append, List.countP_cons]
    have hA0 : A.countP (fun f => (parseContent f.2).isNone) = 0 := by
      rw [List.countP_eq_zero]
      intro f hf
      simpa [Option.isNone_iff_eq_none] using
        Option.isSome_iff_ne_none.mp (hA f hf)
    have hB0 : B.countP (fun f => (parseContent f.2).isNone) = 0 := by
      rw [List.countP_eq_zero]
      intro f hf
      simpa [Option.isNone_iff_eq_none] using
        Option.isSome_iff_ne_none.mp (hB f hf)
    simp [hA0, hB0, hbad]

/-- C4 witness: two valid worker files around one malformed file; the
aggregation keeps exactly the two valid files' reports and warns once. -/
theorem aggregation_skips_malformed_witness :
    (sessionFinish "prod" "ts"
      [("results_0.json", FileContent.workerResults [⟨"R0", "i0", []⟩]),
       ("results_1.json", FileContent.malformed),
       ("results_2.json", FileContent.workerResults [⟨"R2", "i2", []⟩])]).finalOutput.reports
      = (([("results_0.json", FileContent.workerResults [⟨"R0", "i0", []⟩])] ++
          [("results_2.json", FileContent.workerResults [⟨"R2", "i2", []⟩])]).filterMap
            (fun f => parseContent f.2)).flatten
    ∧ (sessionFinish "prod" "ts"
      [("results_0.json", FileContent.workerResults [⟨"R0", "i0", []⟩]),
       ("results_1.json", FileContent.malformed),
       ("results_2.json", FileContent.workerResults [⟨"R2", "i2", []⟩])]).warnings = 1 :=
  aggregation_skips_malformed "prod" "ts"
    [("results_0.json", FileContent.workerResults [⟨"R0", "i0", []⟩]),
     ("results_1.json", FileContent.malformed),
     ("results_2.json", FileContent.workerResults [⟨"R2", "i2", []⟩])]
    [("results_0.json", FileContent.workerResults [⟨"R0", "i0", []⟩])]
    [("results_2.json", FileContent.workerResults [⟨"R2", "i2", []⟩])]
    ("results_1.json", FileContent.malformed)
    (by decide) (by decide) (by decide) (by decide)

/-! ## C5 -/

/-- C5 counterexample: on an explicit (empty) results directory, the
aggregator's complete filesystem trace is a directory creation followed by
two direct writes — it contains no write to a temporary file and no rename,
so the artifact is not written atomically via temp-file-plus-rename as
claimed; the canonical path is written directly. -/
theorem sessionFinish_no_rename_counterexample :
    ((sessionFinish "prod" "ts" []).ops.map FsOp.kindTarget)
      = [(FsOpKind.mkdir, resultsDirName),
         (FsOpKind.write, "all_reports_results.json"),
         (FsOpKind.write, "report.html")]
    ∧ ((sessionFinish "prod" "ts" []).ops.filter FsOp.isRename) = [] := by
  constructor
  · rfl
  · rfl

/-- C5 amended: for every input directory, the aggregator writes the
FinalReport artifact with a single direct write to the fixed path (then the
HTML, then the unlinks); no temporary file and no rename are involved, so
atomicity against concurrent readers is not provided. -/
theorem sessionFinish_writes_directly (env t : String)
    (fs : List (String × FileContent)) :
    ((sessionFinish env t fs).ops.filter FsOp.isRename) = []
    ∧ (sessionFinish env t fs).ops.map FsOp.kindTarget
      = [(FsOpKind.mkdir, resultsDirName),
         (FsOpKind.write, "all_reports_results.json"),
         (FsOpKind.write, "report.html")]
        ++ (sessionFinish env t fs).deleted.map (fun n => (FsOpKind.unlink, n)) := by
  constructor
  · show ([FsOp.mkdirParents resultsDirName, _, _] ++ _).filter FsOp.isRename = []
    rw [List.filter_append]
    rw [List.filter_map]
    simp [FsOp.isRename, Function.comp]
  · show ([FsOp.mkdirParents resultsDirName, _, _] ++ _).map FsOp.kindTarget = _
    rw [List.map_append, List.map_map]
    rfl

/-! ## C6 -/

/-- Writing a file whose name fails a name predicate does not change the
directory's sublist of entries whose names satisfy it. -/
theorem filter_map_update (p : String → Bool) (fs : List (String × FileContent))
    (name : String) (content : FileContent) (h : p name = false) :
    (fs.map (fun f => if f.1 = name then (name, content) else f)).filter
        (fun f => p f.1)
      = fs.filter (fun f => p f.1) := by
  induction fs with
  | nil => rfl
  | cons f fs ih =>
    rcases f with ⟨fn, fc⟩
    by_cases hf : fn = name
    · subst hf
      simp [List.filter_cons, h, ih]
    · cases hp : p fn
      · simp [List.filter_cons, hf, hp, ih]
      · simp [List.filter_cons, hf, hp, ih]

theorem filter_fsWrite (p : String → Bool) (fs : List (String × FileContent))
    (name : String) (content : FileContent) (h : p name = false) :
    (fsWrite fs name content).filter (fun f => p f.1)
      = fs.filter (fun f => p f.1) := by
  unfold fsWrite
  by_cases hany : fs.any (fun f => f.1 = name)
  · rw [if_pos hany]
    exact filter_map_update p fs name content h
  · rw [if_neg hany]
    rw [List.filter_append]
    simp [h]

/-- C6 counterexample: a directory with one valid and one malformed worker
file.  Both files are deleted after the write, but the malformed file's
contents were skipped (one warning, a single aggregated report) — so the
aggregator does not delete "exactly the worker result files whose contents
were included in the FinalReport": it also deletes the skipped file. -/
theorem sessionFinish_deletes_skipped_counterexample :
    (sessionFinish "prod" "ts"
      [("results_0.json", FileContent.workerResults [⟨"R0", "i0", []⟩]),
       ("results_1.json", FileContent.malformed)]).deleted
      = ["results_0.json", "results_1.json"]
    ∧ (sessionFinish "prod" "ts"
      [("results_0.json", FileContent.workerResults [⟨"R0", "i0", []⟩]),
       ("results_1.json", FileContent.malformed)]).finalOutput.reports
      = [⟨"R0", "i0", []⟩]
    ∧ (sessionFinish "prod" "ts"
      [("results_0.json", FileContent.workerResults [⟨"R0", "i0", []⟩]),
       ("results_1.json", FileContent.malformed)]).warnings = 1 := by
  refine ⟨?_, ?_, ?_⟩ <;> rfl

/-- C6 amended: after the writes, the aggregator deletes every file of the
directory matching `results_*.json`, whether or not its contents parsed and
were aggregated; when all matching files are valid this coincides with the
aggregated files, and in particular two worker files holding one report each
yield `totalReports = 2` with both source files deleted. -/
theorem sessionFinish_deletes_matching (env t : String)
    (fs : List (String × FileContent)) :
    (sessionFinish env t fs).deleted
      = (fs.filter (fun f => matchesWorkerPattern f.1)).map Prod.fst
    ∧ (∀ n0 n1 r0 r1,
        fs.filter (fun f => matchesWorkerPattern f.1)
          = [(n0, FileContent.workerResults [r0]),
             (n1, FileContent.workerResults [r1])] →
        (sessionFinish env t fs).finalOutput.summary.totalReports = 2
        ∧ (sessionFinish env t fs).deleted = [n0, n1]) := by
  have hdel : (sessionFinish env t fs).deleted
      = (fs.filter (fun f => matchesWorkerPattern f.1)).map Prod.fst := by
    show ((fsWrite (fsWrite fs "all_reports_results.json" _) "report.html" _).filter
        (fun f => matchesWorkerPattern f.1)).map Prod.fst = _
    rw [filter_fsWrite _ _ _ _ (by rfl), filter_fsWrite _ _ _ _ (by rfl)]
  refine ⟨hdel, ?_⟩
  intro n0 n1 r0 r1 hsplit
  constructor
  · show (mkSummary ((fs.filter (fun f => matchesWorkerPattern f.1)).filterMap
        (fun f => parseContent f.2)).flatten).totalReports = 2
    rw [hsplit]
    rfl
  · rw [hdel, hsplit]
    rfl

/-- C6 witness: the Scenario-6 instance — `results_0.json` and
`results_1.json` with one report each give `totalReports = 2` and both
files deleted. -/
theorem sessionFinish_deletes_matching_witness :
    (sessionFinish "prod" "ts"
      [("results_0.json", FileContent.workerResults [⟨"R0", "i0", []⟩]),
       ("results_1.json", FileContent.workerResults [⟨"R1", "i1", []⟩])]).finalOutput.summary.totalReports = 2
    ∧ (sessionFinish "prod" "ts"
      [("results_0.json", FileContent.workerResults [⟨"R0", "i0", []⟩]),
       ("results_1.json", FileContent.workerResults [⟨"R1", "i1", []⟩])]).deleted
      = ["results_0.json", "results_1.json"] :=
  (sessionFinish_deletes_matching "prod" "ts"
    [("results_0.json", FileContent.workerResults [⟨"R0", "i0", []⟩]),
     ("results_1.json", FileContent.workerResults [⟨"R1", "i1", []⟩])]).2
    "results_0.json" "results_1.json" ⟨"R0", "i0", []⟩ ⟨"R1", "i1", []⟩ (by rfl)

/-! ## C7 -/

/-- The section list is the failure cards of exactly the reports having at
least one failed page. -/
theorem failedSections_eq (reports : List ReportResult)
    (fs : List (String × FileContent)) :
    failedSections reports fs
      = (reports.filter (fun r => !(collectFailedPages fs r).isEmpty)).map
          (fun r => reportCard r (collectFailedPages fs r)) := by
  induction reports with
  | nil => rfl
  | cons r rs ih =>
    by_cases hr : (collectFailedPages fs r).isEmpty
    · have hnil : collectFailedPages fs r = [] := by
        simpa [List.isEmpty_iff] using hr
      simp [failedSections, List.filterMap_cons, List.filter_cons, hr, hnil] at ih ⊢
      exact ih
    · have hnil : ¬ collectFailedPages fs r = [] := by
        simpa [List.isEmpty_iff] using hr
      simp [failedSections, List.filterMap_cons, List.filter_cons, hr, hnil] at ih ⊢
      exact ih

/-- Keeping only the elements satisfying `p` (mapped through `g`) is
non-empty exactly when some element satisfies `p`. -/
theorem not_isEmpty_filter_map {α β : Type} (l : List α) (p : α → Bool)
    (g : α → β) :
    (!((l.filter p).map g).isEmpty) = l.any p := by
  induction l with
  | nil => rfl
  | cons a l ih =>
    cases hp : p a
    · simp [List.filter_cons, hp, ih]
    · simp [List.filter_cons, hp]

/-- A report contributes no failed pages iff every page's error mapping is
empty. -/
theorem collectFailedPages_eq_nil_iff (fs : List (String × FileContent))
    (r : ReportResult) :
    collectFailedPages fs r = [] ↔ ∀ pg ∈ r.pages, pg.2.errors = [] := by
  unfold collectFailedPages
  rw [List.map_eq_nil_iff, List.filter_eq_nil_iff]
  constructor
  · intro h pg hpg
    have := h pg hpg
    simpa [List.isEmpty_iff] using this
  · intro h pg hpg
    simp [List.isEmpty_iff, h pg hpg]

/-- C7: the rendered document always opens with the header and summary
block (counts and pass rate) before any pass/fail content; the tail after
the summary is the single "all pages passed" success card exactly when no
report has a page with a non-empty error mapping, and otherwise it is one
failure card per report that has at least one failed page. -/
theorem generateHtmlReport_structure (fo : FinalOutput)
    (fs : List (String × FileContent)) :
    (failedSections fo.reports fs = [] ↔
      ∀ r ∈ fo.reports, ∀ pg ∈ r.pages, pg.2.errors = [])
    ∧ generateHtmlReport fo fs
      = htmlHeadPre fo.environment ++ fo.generatedAt ++ htmlHeadPost fo.summary
        ++ renderTail (failedSections fo.reports fs)
    ∧ renderTail [] = allPassCard ++ "\n</body>\n</html>"
    ∧ (failedSections fo.reports fs ≠ [] →
        renderTail (failedSections fo.reports fs)
          = "<h2>Failed Reports</h2>\n"
            ++ String.intercalate "\n" (failedSections fo.reports fs)
            ++ "\n</body>\n</html>")
    ∧ (failedSections fo.reports fs).length
      = fo.reports.countP
          (fun r => r.pages.any (fun pg => !pg.2.errors.isEmpty)) := by
  refine ⟨?_, rfl, rfl, ?_, ?_⟩
  · rw [failedSections_eq, List.map_eq_nil_iff, List.filter_eq_nil_iff]
    refine forall₂_congr ?_
    intro r _
    constructor
    · intro h1
      refine (collectFailedPages_eq_nil_iff fs r).mp ?_
      have h2 : (collectFailedPages fs r).isEmpty = true := by
        cases he : (collectFailedPages fs r).isEmpty
        · exact absurd (by simp [he]) h1
        · rfl
      simpa [List.isEmpty_iff] using h2
    · intro h1
      have h2 : collectFailedPages fs r = []
        := (collectFailedPages_eq_nil_iff fs r).mpr h1
      simp [h2]
  · intro hne
    unfold renderTail
    rw [if_neg (by simpa [List.isEmpty_iff] using hne)]
  · rw [failedSections_eq, List.length_map, ← List.countP_eq_length_filter]
    refine List.countP_congr ?_
    intro r _
    rw [show (!(collectFailedPages fs r).isEmpty)
          = r.pages.any (fun pg => !pg.2.errors.isEmpty)
        from not_isEmpty_filter_map r.pages _ _]

/-- C7 witness: the structure equation evaluated on a concrete all-passing
FinalReport. -/
theorem generateHtmlReport_structure_witness :
    generateHtmlReport
      { environment := "prod", generatedAt := "ts"
        summary := { totalReports := 2, totalPages := 5, failedPages := 0,
                     passedPages := 5, passRate := .float 100 }
        reports := [⟨"R0", "i0", [("p1", ⟨[], "u", 1⟩)]⟩] } []
      = htmlHeadPre "prod" ++ "ts"
        ++ htmlHeadPost { totalReports := 2, totalPages := 5, failedPages := 0,
                          passedPages := 5, passRate := .float 100 }
        ++ renderTail (failedSections [⟨"R0", "i0", [("p1", ⟨[], "u", 1⟩)]⟩] []) :=
  (generateHtmlReport_structure
    { environment := "prod", generatedAt := "ts"
      summary := { totalReports := 2, totalPages := 5, failedPages := 0,
                   passedPages := 5, passRate := .float 100 }
      reports := [⟨"R0", "i0", [("p1", ⟨[], "u", 1⟩)]⟩] } []).2.1

/-! ## C8 -/

/-- C8: the renderer is a deterministic pure function of the FinalReport
and the directory listing — two invocations on the same inputs produce
byte-identical documents — and the only timestamp in the output is the one
spliced from the FinalReport itself: the document decomposes as a part
depending only on the environment, then `generatedAt` verbatim, then parts
depending only on the summary, the reports and the screenshot directory. -/
theorem generateHtmlReport_deterministic :
    (∀ (fo₁ fo₂ : FinalOutput) (fs₁ fs₂ : List (String × FileContent)),
      fo₁ = fo₂ → fs₁ = fs₂ →
      generateHtmlReport fo₁ fs₁ = generateHtmlReport fo₂ fs₂)
    ∧ (∀ (fo : FinalOutput) (fs : List (String × FileContent)) (t : String),
      generateHtmlReport { fo with generatedAt := t } fs
        = htmlHeadPre fo.environment ++ t ++ htmlHeadPost fo.summary
          ++ renderTail (failedSections fo.reports fs)) := by
  constructor
  · intro fo₁ fo₂ fs₁ fs₂ h1 h2
    rw [h1, h2]
  · intro fo fs t
    rfl

/-- C8 witness: two renderings of the same concrete FinalReport and
directory agree. -/
theorem generateHtmlReport_deterministic_witness :
    generateHtmlReport
      { environment := "prod", generatedAt := "ts"
        summary := { totalReports := 0, totalPages := 0, failedPages := 0,
                     passedPages := 0, passRate := .int 0 }
        reports := [] } []
    = generateHtmlReport
      { environment := "prod", generatedAt := "ts"
        summary := { totalReports := 0, totalPages := 0, failedPages := 0,
                     passedPages := 0, passRate := .int 0 }
        reports := [] } [] :=
  generateHtmlReport_deterministic.1
    { environment := "prod", generatedAt := "ts"
      summary := { totalReports := 0, totalPages := 0, failedPages := 0,
                   passedPages := 0, passRate := .int 0 }
      reports := [] }
    { environment := "prod", generatedAt := "ts"
      summary := { totalReports := 0, totalPages := 0, failedPages := 0,
                   passedPages := 0, passRate := .int 0 }
      reports := [] } [] [] rfl rfl

/-! ## C10 -/

/-- C10: the pass-rate statistic carries the `pass` class iff
`summary.passRate` equals exactly 100 and the `fail` class otherwise; a
FinalReport with zero total pages (integer pass rate 0 and hence no pages
in any report) renders the "all pages passed" success card while styling
its `0%` pass rate with the `fail` class. -/
theorem passRate_styling (fo : FinalOutput) (fs : List (String × FileContent))
    (h0 : fo.summary.passRate = PyNum.int 0)
    (hp : ∀ r ∈ fo.reports, r.pages = []) :
    (∀ pr : PyNum, (statusClass pr = "pass" ↔ pr.toRat = 100)
      ∧ (statusClass pr = "fail" ↔ pr.toRat ≠ 100))
    ∧ statusClass fo.summary.passRate = "fail"
    ∧ generateHtmlReport fo fs
      = htmlHeadPre fo.environment ++ fo.generatedAt ++ htmlHeadPost fo.summary
        ++ allPassCard ++ "\n</body>\n</html>"
    ∧ passRateStatDiv fo.summary.passRate
      = "<div class=\"stat\"><div class=\"label\">Pass Rate</div>"
        ++ "<div class=\"value fail\">0%</div></div>" := by
  have hiff : ∀ pr : PyNum, (statusClass pr = "pass" ↔ pr.toRat = 100)
      ∧ (statusClass pr = "fail" ↔ pr.toRat ≠ 100) := by
    intro pr
    unfold statusClass
    by_cases h : pr.toRat = 100
    · rw [if_pos h]
      constructor
      · exact ⟨fun _ => h, fun _ => rfl⟩
      · constructor
        · intro hc
          exact absurd hc (by decide)
        · intro hc
          exact absurd h hc
    · rw [if_neg h]
      constructor
      · constructor
        · intro hc
          exact absurd hc (by decide)
        · intro hc
          exact absurd hc h
      · exact ⟨fun _ => h, fun _ => rfl⟩
  have hfail : statusClass fo.summary.passRate = "fail" := by
    rw [h0]
    decide
  refine ⟨hiff, hfail, ?_, ?_⟩
  · have hsec : failedSections fo.reports fs = [] := by
      rw [failedSections_eq, List.map_eq_nil_iff, List.filter_eq_nil_iff]
      intro r hr
      have : collectFailedPages fs r = [] := by
        unfold collectFailedPages
        rw [hp r hr]
        rfl
      simp [this]
    show htmlHeadPre fo.environment ++ fo.generatedAt ++ htmlHeadPost fo.summary
        ++ renderTail (failedSections fo.reports fs) = _
    rw [hsec]
    rw [show renderTail [] = allPassCard ++ "\n</body>\n</html>" from rfl]
    rw [← String.append_assoc]
  · rw [h0]
    decide

/-- C10 witness: the empty-session FinalReport (pass rate int 0, no
reports) instantiating the styling theorem. -/
theorem passRate_styling_witness :
    statusClass (FinalOutput.summary
      { environment := "prod", generatedAt := "ts"
        summary := { totalReports := 0, totalPages := 0, failedPages := 0,
                     passedPages := 0, passRate := .int 0 }
        reports := [] }).passRate = "fail" :=
  (passRate_styling
    { environment := "prod", generatedAt := "ts"
      summary := { totalReports := 0, totalPages := 0, failedPages := 0,
                   passedPages := 0, passRate := .int 0 }
      reports := [] } [] rfl (by intro r hr; cases hr)).2.1

/-! ## C2 -/

/-- The loop result never precedes the starting check. -/
theorem waitExitGo_ge (cond : ℕ → Bool) (k fuel : ℕ) :
    k ≤ waitExitGo cond k fuel := by
  induction fuel generalizing k with
  | zero => exact Nat.le_refl k
  | succ fuel ih =>
    unfold waitExitGo
    by_cases hc : cond k
    · rw [if_pos hc]
    · rw [if_neg hc]
      exact Nat.le_trans (Nat.le_succ k) (ih (k + 1))

/-- The loop result is bounded by the fuel: the race never outlives the
hard timeout. -/
theorem waitExitGo_le (cond : ℕ → Bool) (k fuel : ℕ) :
    waitExitGo cond k fuel ≤ k + fuel := by
  induction fuel generalizing k with
  | zero => exact Nat.le_refl k
  | succ fuel ih =>
    unfold waitExitGo
    by_cases hc : cond k
    · rw [if_pos hc]
      exact Nat.le_add_right k (fuel + 1)
    · rw [if_neg hc]
      calc waitExitGo cond (k + 1) fuel ≤ k + 1 + fuel := ih (k + 1)
        _ = k + (fuel + 1) := by omega

/-- No check before the exit check satisfied the condition. -/
theorem waitExitGo_not_before (cond : ℕ → Bool) (k fuel : ℕ) :
    ∀ j, k ≤ j → j < waitExitGo cond k fuel → cond j = false := by
  induction fuel generalizing k with
  | zero =>
    intro j hkj hj
    exact absurd (Nat.lt_of_le_of_lt hkj hj) (Nat.lt_irrefl k)
  | succ fuel ih =>
    intro j hkj hj
    unfold waitExitGo at hj
    by_cases hc : cond k
    · rw [if_pos hc] at hj
      exact absurd (Nat.lt_of_le_of_lt hkj hj) (Nat.lt_irrefl k)
    · rw [if_neg hc] at hj
      rcases Nat.eq_or_lt_of_le hkj with heq | hlt
      · subst heq
        simpa using hc
      · exact ih (k + 1) j hlt hj

/-- When the loop exits before running out of fuel, the condition holds at
the exit check. -/
theorem waitExitGo_hit (cond : ℕ → Bool) (k fuel : ℕ)
    (h : waitExitGo cond k fuel < k + fuel) :
    cond (waitExitGo cond k fuel) = true := by
  induction fuel generalizing k with
  | zero => exact absurd h (Nat.lt_irrefl k)
  | succ fuel ih =>
    unfold waitExitGo at h ⊢
    by_cases hc : cond k
    · rw [if_pos hc]
      exact hc
    · rw [if_neg hc] at h ⊢
      exact ih (k + 1) (by omega)

/-- C2 (amended): the page-scan polling loop always terminates within the
15-second hard timeout, waking at one-second checks; it exits at the first
check at which the code's condition — an error event has arrived, or the
number of distinct rendered identifiers is at least the number of
discovered visuals — holds, and at the timeout otherwise.  (When every
rendered event names a discovered visual these conditions coincide with
"every discovered visual is in the rendered set".) -/
theorem waitExit_first_condition (visuals : List Visual)
    (trace : List (ℕ × PBIEvent)) :
    waitExit (condAt visuals trace) ≤ 15
    ∧ (∀ j, j < waitExit (condAt visuals trace) →
        condAt visuals trace j = false)
    ∧ (waitExit (condAt visuals trace) < 15 →
        condAt visuals trace (waitExit (condAt visuals trace)) = true) := by
  refine ⟨?_, ?_, ?_⟩
  · simpa using waitExitGo_le (condAt visuals trace) 0 15
  · intro j hj
    exact waitExitGo_not_before (condAt visuals trace) 0 15 j (Nat.zero_le j) hj
  · intro h
    exact waitExitGo_hit (condAt visuals trace) 0 15 (by simpa using h)

/-- C2 witness: on a one-visual page with an empty event trace the loop
runs to the hard timeout, and no earlier check's condition held. -/
theorem waitExit_first_condition_witness :
    waitExit (condAt [Visual.mk "v1" "T1"] []) ≤ 15
    ∧ condAt [Visual.mk "v1" "T1"] [] 3 = false :=
  ⟨(waitExit_first_condition [Visual.mk "v1" "T1"] []).1,
   (waitExit_first_condition [Visual.mk "v1" "T1"] []).2.1 3 (by decide)⟩

/-- C2 counterexample: one discovered visual `v1`, and a single rendered
event carrying the foreign identifier `zz` delivered before the first
check.  The loop exits immediately (the set-size condition counts the
foreign name), yet "every discovered visual identifier is in the rendered
set" is false then — and stays false, so the exit the claim describes would
only come at the 15-second timeout.  The code's exit is therefore not "as
soon as the first of (a)/(b)/(c) holds" in the claim's sense. -/
theorem waitExit_counterexample :
    waitExit (condAt [Visual.mk "v1" "T1"]
        [(0, PBIEvent.visualRendered (some "zz"))]) = 0
    ∧ specCondAt [Visual.mk "v1" "T1"]
        [(0, PBIEvent.visualRendered (some "zz"))] 0 = false
    ∧ waitExit (specCondAt [Visual.mk "v1" "T1"]
        [(0, PBIEvent.visualRendered (some "zz"))]) = 15 := by
  refine ⟨?_, ?_, ?_⟩ <;> decide

/-! ## C3 -/

/-- Assigning a key absent from the object appends the entry. -/
theorem jsSet_fresh (m : List (String × String)) (k v : String)
    (h : ∀ e ∈ m, e.1 ≠ k) : jsSet m k v = m ++ [(k, v)] := by
  unfold jsSet
  rw [if_neg]
  simp only [List.any_eq_true, not_exists, not_and]
  intro e he
  simpa using h e he

/-- Folding fresh, pairwise-distinct assignments over an object appends
them all in order. -/
theorem foldl_jsSet_append (entries m : List (String × String))
    (hdisj : ∀ e ∈ entries, ∀ e2 ∈ m, e2.1 ≠ e.1)
    (hnd : (entries.map Prod.fst).Nodup) :
    entries.foldl (fun acc e => jsSet acc e.1 e.2) m = m ++ entries := by
  induction entries generalizing m with
  | nil => simp
  | cons e es ih =>
    rw [List.foldl_cons]
    rw [jsSet_fresh m e.1 e.2
      (fun e2 he2 => hdisj e (List.mem_cons_self e es) e2 he2)]
    rw [List.map_cons, List.nodup_cons] at hnd
    rw [ih (m ++ [(e.1, e.2)]) ?_ hnd.2]
    · simp
    · intro e3 he3 e2 he2
      rcases List.mem_append.mp he2 with h2 | h2
      · exact hdisj e3 (List.mem_cons_of_mem e he3) e2 h2
      · rcases List.mem_singleton.mp h2 with rfl
        intro hcontra
        exact hnd.1 (hcontra ▸ List.mem_map_of_mem Prod.fst he3)

/-- The first synthesis loop (skip rendered visuals, assign a timeout entry
for the rest) is the fold of the timeout entries. -/
theorem visuals_foldl_eq (visuals : List Visual) (rendered : List String)
    (m : List (String × String)) :
    visuals.foldl
      (fun m v =>
        if rendered.contains v.name then m
        else jsSet m v.displayLabel timeoutMsg) m
    = (timeoutEntries visuals rendered).foldl
        (fun acc e => jsSet acc e.1 e.2) m := by
  induction visuals generalizing m with
  | nil => rfl
  | cons v vs ih =>
    cases hv : rendered.contains v.name
    · have hm : v.name ∉ rendered := by simpa using hv
      rw [List.foldl_cons, if_neg (by rw [hv]; simp)]
      rw [ih]
      have hcons : timeoutEntries (v :: vs) rendered
          = (v.displayLabel, timeoutMsg) :: timeoutEntries vs rendered := by
        simp [timeoutEntries, List.filter_cons, hm]
      rw [hcons, List.foldl_cons]
    · have hm : v.name ∈ rendered := by simpa using hv
      rw [List.foldl_cons, if_pos hv]
      rw [ih]
      have hcons : timeoutEntries (v :: vs) rendered
          = timeoutEntries vs rendered := by
        simp [timeoutEntries, List.filter_cons, hm]
      rw [hcons]

/-- The second synthesis loop is the fold of the `report-error-<n>`
entries. -/
theorem msgs_foldl_eq (msgs : List String) (m : List (String × String)) :
    msgs.enum.foldl
      (fun m p => jsSet m ("report-error-" ++ toString (p.1 + 1)) p.2) m
    = (reportEntries msgs).foldl (fun acc e => jsSet acc e.1 e.2) m := by
  unfold reportEntries
  rw [List.foldl_map]

/-- With pairwise-distinct synthesized keys, the synthesized object is
exactly the timeout entries followed by the report-error entries. -/
theorem synthesizeErrors_eq (visuals : List Visual) (rendered : List String)
    (msgs : List String)
    (h : ((timeoutEntries visuals rendered ++ reportEntries msgs).map
        Prod.fst).Nodup) :
    synthesizeErrors visuals rendered msgs
      = timeoutEntries visuals rendered ++ reportEntries msgs := by
  rw [List.map_append, List.nodup_append] at h
  unfold synthesizeErrors
  rw [visuals_foldl_eq]
  rw [foldl_jsSet_append _ [] (fun e _ e2 he2 => absurd he2 (List.not_mem_nil e2)) h.1]
  rw [msgs_foldl_eq]
  have hdisj : ∀ e ∈ reportEntries msgs,
      ∀ e2 ∈ [] ++ timeoutEntries visuals rendered, e2.1 ≠ e.1 := by
    intro e he e2 he2
    rw [List.nil_append] at he2
    intro hcontra
    apply h.2.2 (List.mem_map_of_mem Prod.fst he2)
    rw [hcontra]
    exact List.mem_map_of_mem Prod.fst he
  rw [foldl_jsSet_append _ _ hdisj h.2.1]
  simp

/-- C3 (amended): after the wait loop exits, the page's error mapping holds
exactly one timeout entry per discovered visual absent from the rendered
set — value "Visual did not render within timeout", keyed by the visual's
display title (or identifier when it has no title) — followed by one entry
per collected report-level error message keyed `report-error-<n>`
(1-indexed, in arrival order), provided the synthesized keys are pairwise
distinct; the page is recorded as failed iff this mapping is non-empty; and
a page with zero discovered visuals gets no timeout entries (it can never
fail due to timeout), though its mapping still holds any collected
report-level errors and is empty only when there are none. -/
theorem scanPage_errors_spec (visuals : List Visual)
    (trace : List (ℕ × PBIEvent))
    (h : ((timeoutEntries visuals
            (renderedNamesAt trace (waitExit (condAt visuals trace)))
          ++ reportEntries
            (reportErrorsAt trace (waitExit (condAt visuals trace)))).map
        Prod.fst).Nodup) :
    (scanPage visuals trace).errors
      = timeoutEntries visuals
          (renderedNamesAt trace (waitExit (condAt visuals trace)))
        ++ reportEntries
          (reportErrorsAt trace (waitExit (condAt visuals trace)))
    ∧ ((scanPage visuals trace).failed = true ↔
        (scanPage visuals trace).errors ≠ [])
    ∧ (visuals = [] →
        (scanPage visuals trace).errors
          = reportEntries
              (reportErrorsAt trace (waitExit (condAt visuals trace)))) := by
  have herr : (scanPage visuals trace).errors
      = timeoutEntries visuals
          (renderedNamesAt trace (waitExit (condAt visuals trace)))
        ++ reportEntries
          (reportErrorsAt trace (waitExit (condAt visuals trace))) :=
    synthesizeErrors_eq visuals _ _ h
  refine ⟨herr, ?_, ?_⟩
  · show (!(scanPage visuals trace).errors.isEmpty) = true ↔ _
    cases he : (scanPage visuals trace).errors
    · simp [he]
    · simp [he]
  · intro hv
    rw [herr, hv]
    rfl

/-- C3 witness: one discovered visual, empty trace — the scan times out and
records exactly the one timeout entry keyed by the visual's title. -/
theorem scanPage_errors_spec_witness :
    (scanPage [Visual.mk "v1" "T1"] []).errors
      = timeoutEntries [Visual.mk "v1" "T1"]
          (renderedNamesAt [] (waitExit (condAt [Visual.mk "v1" "T1"] [])))
        ++ reportEntries
          (reportErrorsAt [] (waitExit (condAt [Visual.mk "v1" "T1"] []))) :=
  (scanPage_errors_spec [Visual.mk "v1" "T1"] [] (by decide)).1

/-- C3 counterexample: a page with zero discovered visuals whose trace
delivers one report-level error before the first check.  The loop exits at
once, but the page's error mapping is `report-error-1 ↦ "boom"` — not empty
— and the page is recorded as failed, contradicting the claim that a page
with zero discovered visuals "always ends with an empty error mapping". -/
theorem scanPage_zero_visuals_counterexample :
    (scanPage [] [(0, PBIEvent.reportError (some "boom"))]).errors
      = [("report-error-1", "boom")]
    ∧ (scanPage [] [(0, PBIEvent.reportError (some "boom"))]).failed = true := by
  refine ⟨?_, ?_⟩ <;> decide

/-! ## C9 -/

/-- C9: the embed-token request body carries an identities payload only
when the dataset requires an effective identity (and a usable dataset id is
present), the identity carries a roles array only when the dataset
additionally requires roles (and a role is available), and when neither
requirement holds the body is exactly `{"accessLevel": "View"}` with no
identities field. -/
theorem buildTokenBody_rls (ri : EmbedInfo) (envDefaultRole : Option String) :
    ((buildTokenBody ri envDefaultRole).identities ≠ none →
      ri.is_effective_identity_required = true)
    ∧ (∀ ids id1, (buildTokenBody ri envDefaultRole).identities = some ids →
        id1 ∈ ids → id1.roles ≠ none →
        ri.is_effective_identity_roles_required = true)
    ∧ (ri.is_effective_identity_required = false →
        ri.is_effective_identity_roles_required = false →
        buildTokenBody ri envDefaultRole
          = { accessLevel := "View", identities := none })
    ∧ (buildTokenBody ri envDefaultRole).accessLevel = "View" := by
  unfold buildTokenBody
  by_cases hg : ri.is_effective_identity_required && truthyStr ri.dataset_id
  · rw [if_pos hg]
    have hreq : ri.is_effective_identity_required = true :=
      (Bool.and_eq_true _ _ ▸ hg).1
    refine ⟨fun _ => hreq, ?_, ?_, rfl⟩
    · intro ids id1 hids hmem hroles
      simp only [Option.some.injEq] at hids
      rw [← hids] at hmem
      rcases List.mem_singleton.mp hmem with rfl
      by_cases hr : ri.is_effective_identity_roles_required &&
          truthyStr (if truthyStr ri.role then ri.role else envDefaultRole)
      · exact (Bool.and_eq_true _ _ ▸ hr).1
      · exact absurd (by simp [hr]) hroles
    · intro hfalse _
      rw [hreq] at hfalse
      cases hfalse
  · rw [if_neg hg]
    refine ⟨fun hc => absurd rfl hc, ?_, fun _ _ => rfl, rfl⟩
    intro ids id1 hids
    cases hids

/-- C9 witness: a dataset requiring neither an effective identity nor roles
yields the bare view-level body. -/
theorem buildTokenBody_rls_witness :
    buildTokenBody (EmbedInfo.mk "r" "w" (some "d") none false false) none
      = { accessLevel := "View", identities := none } :=
  (buildTokenBody_rls (EmbedInfo.mk "r" "w" (some "d") none false false)
    none).2.2.1 rfl rfl

end FabricCICD
